import Mathlib

/-!
Verification of the `screens` display-placement program.

The development shallowly embeds `src/main.rs`: the `Display` tree data
model, the recursive `spawn_display` walk that subdivides a monitor's
rectangle and spawns/positions one browser window per leaf, the
`create_displays` driver, and the configuration-defaulting logic of
`main`.  External processes (firefox, xdotool, xwininfo, i3-msg) are
modelled by an environment `ExtEnv` giving the outcome of each external
call; Rust panics (`expect`, division by zero) are modelled as
`Except.error` carrying the Rust panic message, so an `.error` result
means the whole process aborts at that point.  16-bit machine arithmetic
(`i16` casts, wrapping add/mul as in release builds) is made explicit
through `wrap16`.
-/

set_option autoImplicit false

namespace Screens

/-! ### Character-level models of the Rust `str` operations used by the code -/

/-- ASCII whitespace test used by `str::trim` (the inputs involved are ASCII). -/
def isWS (c : Char) : Bool :=
  c = ' ' || c = '\t' || c = '\n' || c = '\r'

/-- Split a character list at every occurrence of `sep` (like Rust `str::split`). -/
def splitChar (sep : Char) : List Char → List (List Char)
  | [] => [[]]
  | c :: rest =>
    let r := splitChar sep rest
    if c = sep then [] :: r
    else
      match r with
      | [] => [[c]]
      | h :: t => (c :: h) :: t

/-- Remove one trailing carriage return, as Rust `str::lines` does for `\r\n` endings. -/
def stripCR (l : List Char) : List Char :=
  match l.reverse with
  | '\r' :: rest => rest.reverse
  | _ => l

/-- All segments but the last were terminated by `\n` (strip a trailing `\r`);
an empty final segment (trailing newline or empty input) yields no line. -/
def rustLinesAux : List (List Char) → List (List Char)
  | [] => []
  | [last] => if last = [] then [] else [last]
  | seg :: rest => stripCR seg :: rustLinesAux rest

/-- Rust `str::lines`. -/
def rustLines (s : String) : List String :=
  (rustLinesAux (splitChar '\n' s.data)).map (fun cs => String.mk cs)

/-- Decidable list-prefix test. -/
def prefixOfList : List Char → List Char → Bool
  | [], _ => true
  | _ :: _, [] => false
  | a :: as, b :: bs => a = b && prefixOfList as bs

/-- Decidable substring (contiguous) test, Rust `str::contains`. -/
def infixOfList (pat : List Char) : List Char → Bool
  | [] => prefixOfList pat []
  | c :: rest => prefixOfList pat (c :: rest) || infixOfList pat rest

/-- Rust `str::trim` (ASCII whitespace). -/
def trimChars (cs : List Char) : List Char :=
  ((cs.dropWhile isWS).reverse.dropWhile isWS).reverse

/-- Value of an ASCII digit. -/
def digitVal (c : Char) : Option Nat :=
  if '0' ≤ c && c ≤ '9' then some (c.toNat - 48) else none

def parseDigitsAux : List Char → Nat → Option Nat
  | [], acc => some acc
  | c :: rest, acc =>
    match digitVal c with
    | some d => parseDigitsAux rest (acc * 10 + d)
    | none => none

/-- One or more ASCII digits, else `none`. -/
def parseDigits : List Char → Option Nat
  | [] => none
  | cs => parseDigitsAux cs 0

/-- Rust `i16::from_str`: optional sign, digits, range-checked. -/
def parseI16Chars (cs : List Char) : Option Int :=
  match cs with
  | '+' :: ds => (parseDigits ds).bind (fun n => if n ≤ 32767 then some (n : Int) else none)
  | '-' :: ds => (parseDigits ds).bind (fun n => if n ≤ 32768 then some (-(n : Int)) else none)
  | ds => (parseDigits ds).bind (fun n => if n ≤ 32767 then some (n : Int) else none)

/-! ### 16-bit machine arithmetic -/

/-- Interpret an integer as a 16-bit two's-complement value (Rust `as i16`
casts of `usize`/`u16`, and wrapping `i16` add/mul as in release builds). -/
def wrap16 (v : Int) : Int :=
  (v + 32768) % 65536 - 32768

/-- Rust `i16::abs` (wrapping at `i16::MIN` as in release builds). -/
def absI16 (v : Int) : Int :=
  wrap16 (Int.natAbs v)

/-! ### Data model (from `src/main.rs`) -/

/-- The `Display` enum: a webpage leaf or an axis split with ordered children. -/
inductive Display where
  | webpage (url : String)
  | split (vertical : Bool) (items : List Display)

/-- The `Monitor` struct: only a position and an output id are recorded. -/
structure Monitor where
  pos : Int × Int
  id : Nat
  deriving DecidableEq

/-- Outcomes of the external calls made for one leaf:
`spawnOk url cls` is whether `firefox --new-window url --class cls` spawns;
`search cls` is the stdout of `xdotool search --class cls` (`none` = the
command itself failed to run); `xwininfo wid` is the stdout of
`xwininfo -id wid`; `i3msg args` is whether `i3-msg args` ran. -/
structure ExtEnv where
  spawnOk : String → String → Bool
  search : String → Option String
  xwininfo : String → Option String
  i3msg : List String → Option Unit

/-- One spawned-and-positioned window: the synthesized class identity, the
content url, the target rectangle, and the `i3-msg` argument list issued. -/
structure Placement where
  class_name : String
  url : String
  pos : Int × Int
  size : Nat × Nat
  moveArgs : List String
  deriving DecidableEq

/-! ### The leaf pipeline of `spawn_display` (the `Display::Webpage` arm) -/

def xLabel : String := "Absolute upper-left X:"

def yLabel : String := "Absolute upper-left Y:"

/-- `format!("screen_firefox_{}_{}_{}", monitor.id, pos.0, pos.1)`. -/
def class_name (id : Nat) (pos : Int × Int) : String :=
  "screen_firefox_" ++ toString id ++ "_" ++ toString pos.1 ++ "_" ++ toString pos.2

/-- The coordinate-parsing chain before `unwrap_or(0)`: find the labelled
line, `split(':').nth(1)`, `trim`, `parse::<i16>().ok()`. -/
def parse_coord_opt (label info : String) : Option Int :=
  (((rustLines info).find? (fun l => infixOfList label.data l.data)).bind
    (fun l => (splitChar ':' l.data).get? 1)).bind
    (fun part => parseI16Chars (trimChars part))

/-- The parsed coordinate with the code's `unwrap_or(0)` fallback. -/
def parse_coord (label info : String) : Int :=
  (parse_coord_opt label info).getD 0

/-- The exact `i3-msg` argument list built by the code. -/
def i3_args (cls : String) (dx dy : Int) : List String :=
  ["[class=\"" ++ cls ++ "\"]",
   "floating enable,",
   "move",
   "left",
   toString (absI16 dx),
   "px",
   if dx ≥ 0 then "right" else "left",
   toString (absI16 dy),
   "px",
   if dy ≥ 0 then "down" else "up"]

/-- The `Display::Webpage` arm: spawn, discover, measure, correct.
Each `expect` panic becomes an `.error` with the Rust panic message. -/
def leaf_step (env : ExtEnv) (m : Monitor) (url : String) (pos : Int × Int)
    (size : Nat × Nat) : Except String Placement :=
  let cls := class_name m.id pos
  match env.spawnOk url cls with
  | false => .error "Failed to spawn browser"
  | true =>
    match env.search cls with
    | none => .error "Failed to get window ID"
    | some out =>
      let window_id := String.mk (trimChars out.data)
      match env.xwininfo window_id with
      | none => .error "Failed to get window info"
      | some info_str =>
        let current_x := parse_coord xLabel info_str
        let current_y := parse_coord yLabel info_str
        let dx := wrap16 (pos.1 - current_x)
        let dy := wrap16 (pos.2 - current_y)
        let args := i3_args cls dx dy
        match env.i3msg args with
        | none => .error "Failed to move window"
        | some _ => .ok ⟨cls, url, pos, size, args⟩

/-! ### The split geometry of `spawn_display` (the `Display::Split` arm) -/

/-- `new_pos`: the origin handed to child `i`; the index, the cast of
`split_dim` to `i16` and the add/mul are 16-bit operations. -/
def new_pos (vertical : Bool) (pos : Int × Int) (i : Nat) (split_dim : Nat) : Int × Int :=
  let off := wrap16 (wrap16 (i : Int) * wrap16 (split_dim : Int))
  if vertical then (pos.1, wrap16 (pos.2 + off)) else (wrap16 (pos.1 + off), pos.2)

/-- `new_size`: the rectangle size handed to every child. -/
def new_size (vertical : Bool) (split_dim fixed_dim : Nat) : Nat × Nat :=
  if vertical then (fixed_dim, split_dim) else (split_dim, fixed_dim)

mutual

/-- `spawn_display`: recursively walk the tree.  A `Split` first casts
`items.len()` to `u16` and divides (a zero count panics with the Rust
division-by-zero message), then processes children in order. -/
def spawn_display (env : ExtEnv) (m : Monitor) (d : Display) (pos : Int × Int)
    (size : Nat × Nat) : Except String (List Placement) :=
  match d with
  | .webpage url =>
    match leaf_step env m url pos size with
    | .error e => .error e
    | .ok p => .ok [p]
  | .split vertical items =>
    let item_count := items.length % 65536
    if item_count = 0 then .error "attempt to divide by zero"
    else
      let split_dim := (if vertical then size.2 else size.1) / item_count
      let fixed_dim := if vertical then size.1 else size.2
      spawn_items env m items 0 pos vertical split_dim fixed_dim

/-- The enumerated `for` loop over a split's children. -/
def spawn_items (env : ExtEnv) (m : Monitor) (items : List Display) (i : Nat)
    (pos : Int × Int) (vertical : Bool) (split_dim fixed_dim : Nat) :
    Except String (List Placement) :=
  match items with
  | [] => .ok []
  | item :: rest =>
    match spawn_display env m item (new_pos vertical pos i split_dim)
        (new_size vertical split_dim fixed_dim) with
    | .error e => .error e
    | .ok a =>
      match spawn_items env m rest (i + 1) pos vertical split_dim fixed_dim with
      | .error e => .error e
      | .ok b => .ok (a ++ b)

end

/-! ### The driver `create_displays` and the config logic of `main` -/

/-- `HashMap::get` on the id-keyed configuration, as an association list. -/
def lookupDisplay (config : List (Nat × Display)) (id : Nat) : Option Display :=
  match config with
  | [] => none
  | (k, d) :: rest => if k = id then some d else lookupDisplay rest id

/-- `create_displays`: each discovered monitor with a configured tree is
laid out at the monitor's position over a fixed 800×600 rectangle. -/
def create_displays (env : ExtEnv) (monitors : List Monitor)
    (config : List (Nat × Display)) : Except String (List Placement) :=
  match monitors with
  | [] => .ok []
  | m :: rest =>
    match lookupDisplay config m.id with
    | none => create_displays env rest config
    | some d =>
      match spawn_display env m d m.pos (800, 600) with
      | .error e => .error e
      | .ok ps =>
        match create_displays env rest config with
        | .error e => .error e
        | .ok qs => .ok (ps ++ qs)

def default_url : String := "https://oopsallmarquees.com/"

/-- The default configuration: one webpage per discovered monitor. -/
def default_displays (screens : List Monitor) : List (Nat × Display) :=
  screens.map (fun s => (s.id, Display.webpage default_url))

/-- The configuration phase of `main`.  `readResult` is the outcome of
`fs::read_to_string("config.json")`; `parse`/`ser` model `serde_json`
deserialization and serialization; `writeOk` is whether `fs::write`
succeeds.  Returns the configuration used and whether a default was
persisted; `.error` is a process-aborting panic. -/
def main_config (parse : String → Option (List (Nat × Display)))
    (ser : List (Nat × Display) → String) (writeOk : Bool)
    (readResult : Option String) (screens : List Monitor) :
    Except String (List (Nat × Display) × Bool) :=
  match readResult with
  | some content =>
    match parse content with
    | some displays => .ok (displays, false)
    | none => .error "Failed to parse config"
  | none =>
    match writeOk with
    | false => .error "Failed to write default config"
    | true =>
      let cfg := ser (default_displays screens)
      match parse cfg with
      | some displays => .ok (displays, true)
      | none => .error "Failed to parse config"

/-! ### Spec-side definitions (from the spec's words, for refinement claims) -/

/-- The dimension of a rectangle along the split axis. -/
def axis_len (vertical : Bool) (s : Nat × Nat) : Nat :=
  if vertical then s.2 else s.1

/-- From the spec: sub-rectangle `i` has origin
`(rect.x, rect.y + i * step)` (vertical) or `(rect.x + i * step, rect.y)`
(horizontal), with `step` the floored divided dimension. -/
def spec_child_pos (vertical : Bool) (pos : Int × Int) (step : Nat) (i : Nat) : Int × Int :=
  if vertical then (pos.1, pos.2 + (i : Int) * (step : Int))
  else (pos.1 + (i : Int) * (step : Int), pos.2)

/-- From the spec: the sub-rectangle keeps the off-axis dimension and gets
`step` along the axis. -/
def spec_child_size (vertical : Bool) (size : Nat × Nat) (step : Nat) : Nat × Nat :=
  if vertical then (size.1, step) else (step, size.2)

/-- Sequentially concatenate per-child results, stopping at the first panic. -/
def exceptConcat : List (Except String (List Placement)) → Except String (List Placement)
  | [] => .ok []
  | x :: xs =>
    match x with
    | .error e => .error e
    | .ok a =>
      match exceptConcat xs with
      | .error e => .error e
      | .ok b => .ok (a ++ b)

/-! ### Concrete fixtures for witnesses and counterexamples -/

/-- A well-formed `xwininfo` stdout reporting the window at `(130, 20)`. -/
def winfoSample : String :=
  "  Absolute upper-left X:  130\n  Absolute upper-left Y:  20\n"

/-- Every external call succeeds; discovery finds the single window `777`. -/
def envAllOk : ExtEnv :=
  { spawnOk := fun _ _ => true
    search := fun _ => some "777"
    xwininfo := fun _ => some winfoSample
    i3msg := fun _ => some () }

/-- Discovery returns zero matches (empty stdout); `xwininfo` on the empty
id prints an error message with no coordinate lines. -/
def envZeroMatch : ExtEnv :=
  { spawnOk := fun _ _ => true
    search := fun _ => some ""
    xwininfo := fun _ => some "xwininfo: error: unable to parse window id\n"
    i3msg := fun _ => some () }

/-- Measurement output present but with an unparseable X value and no Y line. -/
def garbageInfo : String := "Absolute upper-left X: notanumber\nsomething else\n"

/-- Discovery finds one window but its measurement output is unparseable. -/
def envGarbage : ExtEnv :=
  { spawnOk := fun _ _ => true
    search := fun _ => some "123"
    xwininfo := fun _ => some garbageInfo
    i3msg := fun _ => some () }

/-- The spawn of the window classed `screen_firefox_1_0_0` fails; all other
external calls succeed. -/
def envFailSpawn : ExtEnv :=
  { spawnOk := fun _ cls => !(cls == "screen_firefox_1_0_0")
    search := fun _ => some "777"
    xwininfo := fun _ => some winfoSample
    i3msg := fun _ => some () }

def mon0 : Monitor := ⟨(0, 0), 0⟩

def monA : Monitor := ⟨(0, 0), 1⟩

def monB : Monitor := ⟨(100, 0), 2⟩

def configAB : List (Nat × Display) := [(1, .webpage "a"), (2, .webpage "b")]

/-- The placement every child of a 601-way vertical split of 800×600 gets:
the per-child height is `600/601 = 0`, so every leaf lands at the split's
own origin `(0, 0)` and is identified as `screen_firefox_0_0_0` (measured
at `(130, 20)` under `envAllOk`, so `dx = -130`, `dy = -20`). -/
def p601 : Placement :=
  ⟨"screen_firefox_0_0_0", "a", (0, 0), (800, 0),
    ["[class=\"screen_firefox_0_0_0\"]", "floating enable,", "move", "left",
     "130", "px", "left", "20", "px", "up"]⟩

/-- The placement produced for a single webpage leaf at `(3, 4)` under
`envAllOk` (measured at `(130, 20)`, so `dx = -127`, `dy = -16`). -/
def pWitness : Placement :=
  ⟨"screen_firefox_0_3_4", "u", (3, 4), (800, 600),
    ["[class=\"screen_firefox_0_3_4\"]", "floating enable,", "move", "left",
     "127", "px", "left", "16", "px", "up"]⟩

/-- A model of `serde_json` deserialization that only accepts the string
produced by `serW` (anything else is unparseable). -/
def parseW : String → Option (List (Nat × Display)) :=
  fun s => if s = "serialized" then some [] else none

/-- A model of `serde_json::to_string_pretty` for the empty configuration. -/
def serW : List (Nat × Display) → String := fun _ => "serialized"

/-! ## Theorems -/

/-- `wrap16` is the identity on values already in the `i16` range. -/
theorem wrap16_eq_self {v : Int} (h1 : -32768 ≤ v) (h2 : v ≤ 32767) : wrap16 v = v := by
  unfold wrap16
  omega

/-- Claim C1 (amended): laying out a `Split` with zero children makes the
`u16` cast of the length yield 0 and the dimension division panic with the
Rust division-by-zero message, aborting the process; no `InvalidTree`
error exists anywhere in the program. -/
theorem empty_split_panics_div_by_zero (env : ExtEnv) (m : Monitor) (vertical : Bool)
    (pos : Int × Int) (size : Nat × Nat) :
    spawn_display env m (.split vertical []) pos size =
      .error "attempt to divide by zero" := rfl

/-- Claim C1 counterexample: at a concrete empty `Split`, layout performs
the division by zero (the run aborts with the Rust division-by-zero panic
instead of an `InvalidTree` error). -/
theorem empty_split_divides_by_zero_cex :
    spawn_display envAllOk mon0 (.split true []) (0, 0) (800, 600) =
      .error "attempt to divide by zero" := rfl

/-- Claim C6 (code bug): with `dx = 5 ≥ 0` and `dy = 7 ≥ 0` the command
sent to `i3-msg` is `[class="c"] floating enable, move left 5 px right 7 px
down` — a literal `left` is always inserted directly after `move`, before
the magnitude, so the instructed relative move is `left 5 px` regardless of
the sign of `dx`, and the sign-chosen tokens land after `px` where i3
expects the end of the command. -/
theorem move_args_contain_stray_left :
    i3_args "c" 5 7 =
      ["[class=\"c\"]", "floating enable,", "move", "left", "5", "px", "right",
       "7", "px", "down"] := rfl

/-- Claim C4 (amended): a failure in any placement request panics the
process — if the first monitor's tree fails with panic `e`, the whole run
aborts with `e` and no further monitor or request is processed. -/
theorem failure_aborts_run (env : ExtEnv) (m : Monitor) (ms : List Monitor)
    (config : List (Nat × Display)) (d : Display) (e : String)
    (hlk : lookupDisplay config m.id = some d)
    (hsp : spawn_display env m d m.pos (800, 600) = .error e) :
    create_displays env (m :: ms) config = .error e := by
  simp only [create_displays, hlk, hsp]

/-- Claim C4 counterexample: two monitors are configured, the first spawn
fails, and the entire run aborts with that panic — the second monitor's
request is never processed (no placements are produced for it). -/
theorem first_failure_aborts_run_cex :
    create_displays envFailSpawn [monA, monB] configAB =
      .error "Failed to spawn browser" := rfl

/-- Witness for `failure_aborts_run` at a concrete failing run. -/
theorem failure_aborts_run_witness :
    lookupDisplay configAB monA.id = some (Display.webpage "a") ∧
    create_displays envFailSpawn [monA] configAB = .error "Failed to spawn browser" :=
  ⟨rfl, failure_aborts_run envFailSpawn monA [] configAB (Display.webpage "a")
    "Failed to spawn browser" rfl rfl⟩

/-- Claim C5 (amended): the number of discovery matches is never examined —
whatever `xdotool` prints (empty for zero matches, multi-line for several)
is trimmed and used as the window id, and as long as the external commands
themselves run, the operation completes and issues an `i3-msg` move command;
no `DiscoveryFailed` outcome exists. -/
theorem discovery_unchecked_always_moves (env : ExtEnv) (m : Monitor) (url : String)
    (pos : Int × Int) (size : Nat × Nat) (s info : String)
    (hsp : env.spawnOk url (class_name m.id pos) = true)
    (hse : env.search (class_name m.id pos) = some s)
    (hwi : env.xwininfo (String.mk (trimChars s.data)) = some info)
    (hmv : env.i3msg (i3_args (class_name m.id pos)
        (wrap16 (pos.1 - parse_coord xLabel info))
        (wrap16 (pos.2 - parse_coord yLabel info))) = some ()) :
    spawn_display env m (.webpage url) pos size =
      .ok [⟨class_name m.id pos, url, pos, size,
        i3_args (class_name m.id pos)
          (wrap16 (pos.1 - parse_coord xLabel info))
          (wrap16 (pos.2 - parse_coord yLabel info))⟩] := by
  simp only [spawn_display, leaf_step, hsp, hse, hwi, hmv]

/-- Claim C5 counterexample: discovery returns zero matches (empty stdout),
yet the operation succeeds and issues a move command computed from the
fallback measurement `(0, 0)` — nothing reports `DiscoveryFailed`. -/
theorem zero_match_still_moves_cex :
    spawn_display envZeroMatch mon0 (.webpage "u") (10, 20) (800, 600) =
      .ok [⟨"screen_firefox_0_10_20", "u", (10, 20), (800, 600),
        ["[class=\"screen_firefox_0_10_20\"]", "floating enable,", "move", "left",
         "10", "px", "right", "20", "px", "down"]⟩] := rfl

/-- Witness for `discovery_unchecked_always_moves` with a zero-match
discovery result. -/
theorem discovery_unchecked_always_moves_witness :
    envZeroMatch.search (class_name mon0.id (10, 20)) = some "" ∧
    spawn_display envZeroMatch mon0 (.webpage "u") (10, 20) (800, 600) =
      .ok [⟨class_name mon0.id (10, 20), "u", (10, 20), (800, 600),
        i3_args (class_name mon0.id (10, 20))
          (wrap16 (10 - parse_coord xLabel "xwininfo: error: unable to parse window id\n"))
          (wrap16 (20 - parse_coord yLabel "xwininfo: error: unable to parse window id\n"))⟩] :=
  ⟨rfl, discovery_unchecked_always_moves envZeroMatch mon0 "u" (10, 20) (800, 600) ""
    "xwininfo: error: unable to parse window id\n" rfl rfl rfl rfl⟩

/-- Claim C7 (amended): when the measurement output has no parseable
coordinate (missing labelled line or non-integer value), the process does
not panic but substitutes 0 for each unparseable coordinate via
`unwrap_or(0)` and continues to issue the move command; no
`MeasurementFailed` outcome exists. -/
theorem parse_failure_substitutes_zero (env : ExtEnv) (m : Monitor) (url : String)
    (pos : Int × Int) (size : Nat × Nat) (s info : String)
    (hsp : env.spawnOk url (class_name m.id pos) = true)
    (hse : env.search (class_name m.id pos) = some s)
    (hwi : env.xwininfo (String.mk (trimChars s.data)) = some info)
    (hx : parse_coord_opt xLabel info = none)
    (hy : parse_coord_opt yLabel info = none)
    (hmv : env.i3msg (i3_args (class_name m.id pos)
        (wrap16 pos.1) (wrap16 pos.2)) = some ()) :
    spawn_display env m (.webpage url) pos size =
      .ok [⟨class_name m.id pos, url, pos, size,
        i3_args (class_name m.id pos) (wrap16 pos.1) (wrap16 pos.2)⟩] := by
  simp only [spawn_display, leaf_step, hsp, hse, hwi, parse_coord, hx, hy,
    Option.getD, sub_zero, hmv]

/-- Claim C7 counterexample: the `X` line is present but not an integer and
the `Y` line is absent; the run does not fail — it proceeds with measured
coordinates `(0, 0)` and issues a move computed from them. -/
theorem unparseable_info_defaults_zero_cex :
    spawn_display envGarbage mon0 (.webpage "u") (7, 9) (800, 600) =
      .ok [⟨"screen_firefox_0_7_9", "u", (7, 9), (800, 600),
        ["[class=\"screen_firefox_0_7_9\"]", "floating enable,", "move", "left",
         "7", "px", "right", "9", "px", "down"]⟩] := rfl

/-- Witness for `parse_failure_substitutes_zero` at a concrete garbage
measurement. -/
theorem parse_failure_substitutes_zero_witness :
    parse_coord_opt xLabel garbageInfo = none ∧
    spawn_display envGarbage mon0 (.webpage "u") (7, 9) (800, 600) =
      .ok [⟨class_name mon0.id (7, 9), "u", (7, 9), (800, 600),
        i3_args (class_name mon0.id (7, 9)) (wrap16 7) (wrap16 9)⟩] :=
  ⟨rfl, parse_failure_substitutes_zero envGarbage mon0 "u" (7, 9) (800, 600) "123"
    garbageInfo rfl rfl rfl rfl rfl rfl⟩

/-- Claim C10 (amended): a missing configuration file triggers generation
of the default configuration (one webpage per discovered monitor), persists
it, and proceeds with it (given that serialization round-trips); but an
unparseable configuration file panics with `Failed to parse config` and
aborts the run instead of falling back to the default. -/
theorem config_defaulting_behavior (parse : String → Option (List (Nat × Display)))
    (ser : List (Nat × Display) → String) (screens : List Monitor)
    (content : String) (w : Bool) :
    (parse content = none →
      main_config parse ser w (some content) screens = .error "Failed to parse config") ∧
    (parse (ser (default_displays screens)) = some (default_displays screens) →
      main_config parse ser true none screens = .ok (default_displays screens, true)) := by
  constructor
  · intro h
    simp only [main_config, h]
  · intro h
    simp only [main_config, h]

/-- Claim C10 counterexample: a present-but-unparseable configuration file
aborts the run with the parse panic; no default is generated. -/
theorem unparseable_config_aborts_cex :
    main_config parseW serW true (some "not json") [] =
      .error "Failed to parse config" := rfl

/-- Witness for `config_defaulting_behavior`: the unparseable case aborts
and the missing-file case proceeds with the persisted default. -/
theorem config_defaulting_behavior_witness :
    parseW "not json" = none ∧
    main_config parseW serW true (some "not json") [] = .error "Failed to parse config" ∧
    main_config parseW serW true none [] = .ok (default_displays [], true) :=
  ⟨rfl, (config_defaulting_behavior parseW serW [] "not json" true).1 rfl,
    (config_defaulting_behavior parseW serW [] "not json" true).2 rfl⟩

/-- Unfolding lemma for `exceptConcat` on a cons cell. -/
theorem exceptConcat_cons (x : Except String (List Placement))
    (xs : List (Except String (List Placement))) :
    exceptConcat (x :: xs) =
      match x with
      | .error e => .error e
      | .ok a =>
        match exceptConcat xs with
        | .error e => .error e
        | .ok b => .ok (a ++ b) := rfl

/-- Pointwise-equal functions map lists equally. -/
theorem map_congr_mem {α β : Type} (l : List α) (f g : α → β)
    (h : ∀ a ∈ l, f a = g a) : l.map f = l.map g := by
  induction l with
  | nil => rfl
  | cons x xs ih =>
    simp only [List.map_cons]
    rw [h x (by simp), ih (fun a ha => h a (by simp [ha]))]

/-- Indices produced by `enumFrom` are bounded by the starting index and
the list length. -/
theorem enumFrom_mem_lt {α : Type} :
    ∀ (l : List α) (n : Nat) (p : Nat × α),
      p ∈ List.enumFrom n l → n ≤ p.1 ∧ p.1 < n + l.length := by
  intro l
  induction l with
  | nil =>
    intro n p hp
    simp [List.enumFrom] at hp
  | cons x xs ih =>
    intro n p hp
    simp only [List.enumFrom, List.mem_cons] at hp
    rcases hp with rfl | h
    · simp only [List.length_cons]
      omega
    · have := ih (n + 1) p h
      simp only [List.length_cons]
      omega

/-- `spawn_items` is the per-child concatenation over the enumerated list. -/
theorem spawn_items_eq_enumFrom (env : ExtEnv) (m : Monitor) (vertical : Bool)
    (sd fd : Nat) :
    ∀ (items : List Display) (i : Nat) (pos : Int × Int),
      spawn_items env m items i pos vertical sd fd =
        exceptConcat ((List.enumFrom i items).map (fun p =>
          spawn_display env m p.2 (new_pos vertical pos p.1 sd)
            (new_size vertical sd fd))) := by
  intro items
  induction items with
  | nil =>
    intro i pos
    rfl
  | cons item rest ih =>
    intro i pos
    simp only [spawn_items, List.enumFrom, List.map_cons, exceptConcat_cons, ih]

/-- The core 16-bit range argument: when the offsets stay inside the `i16`
range, the wrapped offset arithmetic of `new_pos` agrees with exact
integer arithmetic. -/
theorem wrap16_offset (A : Int) (i n sd : Nat) (hin : i < n)
    (hA : -32768 ≤ A) (hB : A + (((n - 1) * sd : Nat) : Int) ≤ 32767)
    (hq : (n - 1) * sd ≤ 32767) :
    wrap16 (A + wrap16 (wrap16 (i : Int) * wrap16 (sd : Int))) =
      A + (i : Int) * (sd : Int) := by
  have hisd : i * sd ≤ (n - 1) * sd := Nat.mul_le_mul (by omega) (Nat.le_refl sd)
  have wz : wrap16 (0 : Int) = 0 := by decide
  rcases Nat.eq_zero_or_pos sd with hsd | hsd
  · subst hsd
    simp only [Nat.mul_zero, Nat.cast_zero, add_zero] at hB
    simp only [Nat.cast_zero, wz, mul_zero, add_zero]
    exact wrap16_eq_self hA hB
  · rcases Nat.eq_zero_or_pos i with hi0 | hi1
    · subst hi0
      simp only [Nat.cast_zero, wz, zero_mul, add_zero]
      refine wrap16_eq_self hA ?_
      omega
    · have hsd32 : sd ≤ 32767 := by
        calc sd = 1 * sd := (one_mul sd).symm
        _ ≤ (n - 1) * sd := Nat.mul_le_mul_right sd (by omega)
        _ ≤ 32767 := hq
      have hi32 : i ≤ 32767 := by
        calc i ≤ n - 1 := by omega
        _ = (n - 1) * 1 := (mul_one _).symm
        _ ≤ (n - 1) * sd := Nat.mul_le_mul_left (n - 1) hsd
        _ ≤ 32767 := hq
      have hisd32 : i * sd ≤ 32767 := le_trans hisd hq
      have iw : wrap16 (i : Int) = i := wrap16_eq_self (by omega) (by omega)
      have sw : wrap16 (sd : Int) = sd := wrap16_eq_self (by omega) (by omega)
      have cast_eq : ((i * sd : Nat) : Int) = (i : Int) * (sd : Int) := by
        push_cast
        ring
      have pw : wrap16 ((i : Int) * (sd : Int)) = (i : Int) * (sd : Int) := by
        rw [← cast_eq]
        exact wrap16_eq_self (by omega) (by omega)
      rw [iw, sw, pw, ← cast_eq]
      exact wrap16_eq_self (by omega) (by omega)

/-- In-range child origins computed by `new_pos` equal the spec formula. -/
theorem new_pos_eq_spec (vertical : Bool) (pos : Int × Int) (i n sd : Nat)
    (hin : i < n)
    (hA : -32768 ≤ (if vertical then pos.2 else pos.1))
    (hB : (if vertical then pos.2 else pos.1) + (((n - 1) * sd : Nat) : Int) ≤ 32767)
    (hq : (n - 1) * sd ≤ 32767) :
    new_pos vertical pos i sd = spec_child_pos vertical pos sd i := by
  cases vertical with
  | false =>
    have h1 : -32768 ≤ pos.1 := by simpa using hA
    have h2 : pos.1 + (((n - 1) * sd : Nat) : Int) ≤ 32767 := by simpa using hB
    simp only [new_pos, spec_child_pos, Bool.false_eq_true, if_false]
    rw [wrap16_offset pos.1 i n sd hin h1 h2 hq]
  | true =>
    have h1 : -32768 ≤ pos.2 := by simpa using hA
    have h2 : pos.2 + (((n - 1) * sd : Nat) : Int) ≤ 32767 := by simpa using hB
    simp only [new_pos, spec_child_pos, if_true]
    rw [wrap16_offset pos.2 i n sd hin h1 h2 hq]

/-- The child size computed by `new_size` equals the spec formula. -/
theorem new_size_eq_spec (vertical : Bool) (size : Nat × Nat) (sd : Nat) :
    new_size vertical sd (if vertical then size.1 else size.2) =
      spec_child_size vertical size sd := by
  cases vertical <;> rfl

/-- Claim C3: every monitor with a configured tree is laid out at the
monitor's recorded position over the fixed 800×600 rectangle — the
`Monitor` record carries no resolution at all, so no other dimension can
enter the layout. -/
theorem monitors_fixed_800x600 (env : ExtEnv) (monitors : List Monitor)
    (config : List (Nat × Display)) :
    create_displays env monitors config =
      exceptConcat (monitors.map (fun m =>
        match lookupDisplay config m.id with
        | none => .ok []
        | some d => spawn_display env m d m.pos (800, 600))) := by
  induction monitors with
  | nil => rfl
  | cons m rest ih =>
    simp only [create_displays, List.map_cons, exceptConcat_cons, ← ih]
    cases lookupDisplay config m.id with
    | none =>
      cases create_displays env rest config <;> simp
    | some d =>
      cases spawn_display env m d m.pos (800, 600) with
      | error e => rfl
      | ok a => cases create_displays env rest config <;> simp

/-- Claim C2 (amended): for a split with `1 ≤ n ≤ 65535` children whose
offsets all fit in the `i16` range, child `i` is processed in order with
exactly the claimed origin and size: step `⌊d/n⌋` along the axis, the full
off-axis dimension, origin advanced by `i·⌊d/n⌋`, remainder dropped.
Outside these bounds the 16-bit casts wrap (see the counterexample). -/
theorem split_geometry_in_range (env : ExtEnv) (m : Monitor) (vertical : Bool)
    (items : List Display) (pos : Int × Int) (size : Nat × Nat)
    (h1 : 0 < items.length) (h2 : items.length < 65536)
    (hA : -32768 ≤ (if vertical then pos.2 else pos.1))
    (hB : (if vertical then pos.2 else pos.1) +
        (((items.length - 1) * (axis_len vertical size / items.length) : Nat) : Int)
        ≤ 32767)
    (hq : (items.length - 1) * (axis_len vertical size / items.length) ≤ 32767) :
    spawn_display env m (.split vertical items) pos size =
      exceptConcat ((List.enumFrom 0 items).map (fun p =>
        spawn_display env m p.2
          (spec_child_pos vertical pos (axis_len vertical size / items.length) p.1)
          (spec_child_size vertical size (axis_len vertical size / items.length)))) := by
  simp only [axis_len] at hB hq ⊢
  have hmod : items.length % 65536 = items.length := Nat.mod_eq_of_lt h2
  simp only [spawn_display, hmod]
  rw [if_neg (by omega)]
  rw [spawn_items_eq_enumFrom]
  congr 1
  apply map_congr_mem
  intro p hp
  have hb := enumFrom_mem_lt items 0 p hp
  rw [new_pos_eq_spec vertical pos p.1 items.length _ (by omega) hA hB hq,
    new_size_eq_spec]

/-- Witness for `split_geometry_in_range`: the spec's own example, a
horizontal 3-way split of `(0,0,100,100)` (step 33, origins 0/33/66). -/
theorem split_geometry_in_range_witness :
    (0 < (3 : Nat) ∧ (3 : Nat) < 65536) ∧
    spawn_display envAllOk mon0
        (.split false [.webpage "A", .webpage "B", .webpage "C"]) (0, 0) (100, 100) =
      exceptConcat ((List.enumFrom 0 [Display.webpage "A", .webpage "B", .webpage "C"]).map
        (fun p => spawn_display envAllOk mon0 p.2
          (spec_child_pos false (0, 0) (axis_len false (100, 100) / 3) p.1)
          (spec_child_size false (100, 100) (axis_len false (100, 100) / 3)))) ∧
    (spawn_display envAllOk mon0
        (.split false [.webpage "A", .webpage "B", .webpage "C"]) (0, 0) (100, 100)).map
      (fun ps => ps.map (fun p => (p.pos, p.size))) =
        .ok [((0, 0), (33, 100)), ((33, 0), (33, 100)), ((66, 0), (33, 100))] :=
  ⟨⟨by decide, by decide⟩,
    split_geometry_in_range envAllOk mon0 false
      [.webpage "A", .webpage "B", .webpage "C"] (0, 0) (100, 100)
      (by decide) (by decide) (by decide) (by decide) (by decide),
    rfl⟩

/-- Claim C2 counterexample: a vertical 2-way split of 800×600 at
`y = 32600` — the claim's formula places the second child at `y = 32900`,
but the code's 16-bit addition wraps and assigns `y = -32636`. -/
theorem split_geometry_wraps_cex :
    (spawn_display envAllOk mon0 (.split true [.webpage "a", .webpage "b"])
        (0, 32600) (800, 600)).map (fun ps => ps.map (fun p => p.pos)) =
      .ok [(0, 32600), (0, -32636)] ∧
    spec_child_pos true (0, 32600) (600 / 2) 1 = (0, 32900) := by
  constructor
  · rfl
  · decide

/-- A successful leaf step yields a placement whose identity is the class
name synthesized from the monitor id and the leaf's position. -/
theorem leaf_step_fields (env : ExtEnv) (m : Monitor) (url : String) (pos : Int × Int)
    (size : Nat × Nat) (p : Placement) (h : leaf_step env m url pos size = .ok p) :
    p.class_name = class_name m.id p.pos := by
  simp only [leaf_step] at h
  split at h
  · cases h
  · split at h
    · cases h
    · split at h
      · cases h
      · split at h
        · cases h
        · cases h
          rfl

/-- All placements of a child loop satisfy the identity property if all
children do. -/
theorem spawn_items_class (env : ExtEnv) (m : Monitor) :
    ∀ (items : List Display) (i : Nat) (pos : Int × Int) (vertical : Bool)
      (sd fd : Nat) (ps : List Placement),
      (∀ item ∈ items, ∀ (pos2 : Int × Int) (size2 : Nat × Nat) (ps2 : List Placement),
        spawn_display env m item pos2 size2 = .ok ps2 →
        ∀ p ∈ ps2, p.class_name = class_name m.id p.pos) →
      spawn_items env m items i pos vertical sd fd = .ok ps →
      ∀ p ∈ ps, p.class_name = class_name m.id p.pos := by
  intro items
  induction items with
  | nil =>
    intro i pos vertical sd fd ps _ h p hp
    simp only [spawn_items] at h
    cases h
    simp at hp
  | cons item rest ihr =>
    intro i pos vertical sd fd ps hmem h p hp
    simp only [spawn_items] at h
    split at h
    · cases h
    · rename_i a ha
      split at h
      · cases h
      · rename_i b hb
        cases h
        rcases List.mem_append.mp hp with hpa | hpb
        · exact hmem item (by simp) _ _ _ ha p hpa
        · exact ihr (i + 1) pos vertical sd fd b
            (fun it hit => hmem it (by simp [hit])) hb p hpb

/-- Identity property for the whole tree walk, by strong induction on the
tree size. -/
theorem spawn_display_class_aux (env : ExtEnv) (m : Monitor) :
    ∀ (k : Nat) (d : Display), sizeOf d ≤ k →
      ∀ (pos : Int × Int) (size : Nat × Nat) (ps : List Placement),
        spawn_display env m d pos size = .ok ps →
        ∀ p ∈ ps, p.class_name = class_name m.id p.pos := by
  intro k
  induction k with
  | zero =>
    intro d hd
    cases d <;> simp at hd
  | succ k ih =>
    intro d hd pos size ps h p hp
    cases d with
    | webpage url =>
      simp only [spawn_display] at h
      split at h
      · cases h
      · rename_i q hq
        cases h
        simp only [List.mem_singleton] at hp
        subst hp
        exact leaf_step_fields env m url pos size p hq
    | split vertical items =>
      simp only [spawn_display] at h
      split at h
      · cases h
      · refine spawn_items_class env m items 0 pos vertical _ _ ps ?_ h p hp
        intro item hmem pos2 size2 ps2 h2 p2 hp2
        have hsz := List.sizeOf_lt_of_mem hmem
        have hd2 : sizeOf item ≤ k := by
          simp only [Display.split.sizeOf_spec] at hd
          omega
        exact ih item hd2 pos2 size2 ps2 h2 p2 hp2

/-- Claim C8 (amended): every emitted placement's identity is exactly the
class name synthesized from the monitor id and the placement's computed
origin — nothing else enters it, so identities are pairwise distinct only
as long as the computed per-monitor origins are; leaves whose origins
coincide (as when a split's per-child dimension truncates to zero) receive
identical identities. -/
theorem identity_from_monitor_and_pos (env : ExtEnv) (m : Monitor) (d : Display)
    (pos : Int × Int) (size : Nat × Nat) (ps : List Placement) (p : Placement)
    (h : spawn_display env m d pos size = .ok ps) (hp : p ∈ ps) :
    p.class_name = class_name m.id p.pos :=
  spawn_display_class_aux env m (sizeOf d) d (Nat.le_refl _) pos size ps h p hp

/-- Witness for `identity_from_monitor_and_pos` at a concrete leaf run. -/
theorem identity_from_monitor_and_pos_witness :
    spawn_display envAllOk mon0 (.webpage "u") (3, 4) (800, 600) = .ok [pWitness] ∧
    pWitness.class_name = class_name mon0.id pWitness.pos :=
  ⟨rfl, identity_from_monitor_and_pos envAllOk mon0 (.webpage "u") (3, 4) (800, 600)
    [pWitness] pWitness rfl (by simp)⟩

/-- A single webpage leaf under `envAllOk` yields exactly one placement,
measured at `(130, 20)`. -/
theorem leaf_ok_envAllOk (m : Monitor) (url : String) (pos : Int × Int)
    (size : Nat × Nat) :
    spawn_display envAllOk m (.webpage url) pos size =
      .ok [⟨class_name m.id pos, url, pos, size,
        i3_args (class_name m.id pos) (wrap16 (pos.1 - 130)) (wrap16 (pos.2 - 20))⟩] := rfl

/-- With a zero per-child dimension every child is placed at the split's
own origin. -/
theorem new_pos_zero (i : Nat) : new_pos true (0, 0) i 0 = ((0 : Int), (0 : Int)) := by
  have wz : wrap16 (0 : Int) = 0 := by decide
  simp [new_pos, wz]

/-- The unfolding of `spawn_display` on a replicated vertical split of the
800×600 rectangle, with the `u16`-cast child count kept symbolic. -/
theorem split_replicate_eval (m : Monitor) (url : String) (k c : Nat)
    (hk : k % 65536 = c) (hc : ¬ c = 0) :
    spawn_display envAllOk m (.split true (List.replicate k (.webpage url)))
        (0, 0) (800, 600) =
      spawn_items envAllOk m (List.replicate k (.webpage url)) 0 (0, 0) true
        (600 / c) 800 := by
  simp only [spawn_display, List.length_replicate, hk]
  rw [if_neg hc]
  norm_num

/-- A replicated list of webpage leaves with per-child dimension 0 yields
one copy of `p601` per leaf: every leaf is placed at `(0, 0)` and gets the
same identity. -/
theorem spawn_items_replicate_zero :
    ∀ (k i : Nat),
      spawn_items envAllOk mon0 (List.replicate k (.webpage "a")) i (0, 0) true 0 800 =
        .ok (List.replicate k p601) := by
  intro k
  induction k with
  | zero =>
    intro i
    rfl
  | succ k ih =>
    intro i
    have hleaf : spawn_display envAllOk mon0 (.webpage "a") ((0 : Int), (0 : Int))
        (new_size true 0 800) = .ok [p601] := rfl
    rw [List.replicate_succ]
    simp only [spawn_items, new_pos_zero, hleaf, ih (i + 1), List.singleton_append,
      List.replicate_succ]

/-- Claim C8 counterexample: a 601-way vertical split of one monitor's
800×600 rectangle truncates the per-child height to `600/601 = 0`, so all
601 leaves are placed at `(0, 0)` and every placement — in particular the
first two, which come from different leaves — carries the identical
identity `screen_firefox_0_0_0`. -/
theorem duplicate_identity_cex :
    spawn_display envAllOk mon0
        (.split true (List.replicate 601 (.webpage "a"))) (0, 0) (800, 600) =
      .ok (List.replicate 601 p601) ∧
    (List.replicate 601 p601).get? 0 = some p601 ∧
    (List.replicate 601 p601).get? 1 = some p601 := by
  refine ⟨?_, rfl, rfl⟩
  exact (split_replicate_eval mon0 "a" 601 601 (by norm_num) (by norm_num)).trans
    (spawn_items_replicate_zero 601 0)

/-- Sum of a constant map. -/
theorem sum_map_const {α : Type} (l : List α) (c : Nat) :
    (l.map (fun _ => c)).sum = l.length * c := by
  induction l with
  | nil => simp
  | cons x xs ih =>
    simp only [List.map_cons, List.sum_cons, ih, List.length_cons, Nat.succ_mul]
    omega

/-- Sum of a replicated constant. -/
theorem sum_replicate_nat (n c : Nat) : (List.replicate n c).sum = n * c := by
  induction n with
  | zero => simp
  | succ n ih =>
    simp only [List.replicate_succ, List.sum_cons, ih, Nat.succ_mul]
    omega

/-- Claim C9 (amended): for a split with `1 ≤ n ≤ 65535` children, every
child is assigned `⌊d/n⌋` along the split axis, so the assigned dimensions
sum to `n·⌊d/n⌋ ≤ d` with remainder `d mod n < n`.  (For `n ≥ 65536` the
`u16` cast of the length breaks this — see the counterexample.) -/
theorem split_sums_within_parent (env : ExtEnv) (m : Monitor) (vertical : Bool)
    (items : List Display) (pos : Int × Int) (size : Nat × Nat)
    (h1 : 0 < items.length) (h2 : items.length < 65536) :
    spawn_display env m (.split vertical items) pos size =
      exceptConcat ((List.enumFrom 0 items).map (fun p =>
        spawn_display env m p.2
          (new_pos vertical pos p.1 (axis_len vertical size / items.length))
          (new_size vertical (axis_len vertical size / items.length)
            (if vertical then size.1 else size.2)))) ∧
    (items.map (fun _ => axis_len vertical
        (new_size vertical (axis_len vertical size / items.length)
          (if vertical then size.1 else size.2)))).sum ≤ axis_len vertical size ∧
    axis_len vertical size -
      (items.map (fun _ => axis_len vertical
        (new_size vertical (axis_len vertical size / items.length)
          (if vertical then size.1 else size.2)))).sum < items.length := by
  have hax : axis_len vertical (new_size vertical (axis_len vertical size / items.length)
      (if vertical then size.1 else size.2)) = axis_len vertical size / items.length := by
    cases vertical <;> rfl
  have hdm := Nat.div_add_mod (axis_len vertical size) items.length
  have hmlt := Nat.mod_lt (axis_len vertical size) h1
  refine ⟨?_, ?_, ?_⟩
  · have hmod : items.length % 65536 = items.length := Nat.mod_eq_of_lt h2
    simp only [spawn_display, hmod, axis_len]
    rw [if_neg (by omega), spawn_items_eq_enumFrom]
  · rw [hax, sum_map_const]
    omega
  · rw [hax, sum_map_const]
    omega

/-- Witness for `split_sums_within_parent`: a vertical single-child split
of the 800×600 rectangle. -/
theorem split_sums_within_parent_witness :
    (0 < (1 : Nat) ∧ (1 : Nat) < 65536) ∧
    (spawn_display envAllOk mon0 (.split true [.webpage "a"]) (0, 0) (800, 600) =
      exceptConcat ((List.enumFrom 0 [Display.webpage "a"]).map (fun p =>
        spawn_display envAllOk mon0 p.2 (new_pos true (0, 0) p.1 600)
          (new_size true 600 800))) ∧
      ([Display.webpage "a"].map (fun _ => (600 : Nat))).sum ≤ 600 ∧
      600 - ([Display.webpage "a"].map (fun _ => (600 : Nat))).sum < 1) :=
  ⟨⟨by decide, by decide⟩,
    split_sums_within_parent envAllOk mon0 true [.webpage "a"] (0, 0) (800, 600)
      (by decide) (by decide)⟩

/-- A replicated list of webpage leaves yields one placement per leaf, each
carrying the full per-child size handed down by the loop. -/
theorem spawn_items_replicate (m : Monitor) (url : String) :
    ∀ (k : Nat) (i : Nat) (pos : Int × Int),
      ∃ ps, spawn_items envAllOk m (List.replicate k (.webpage url)) i pos true 600 800 =
        .ok ps ∧ ps.map (fun p => p.size) = List.replicate k ((800 : Nat), (600 : Nat)) := by
  intro k
  induction k with
  | zero =>
    intro i pos
    exact ⟨[], rfl, rfl⟩
  | succ k ih =>
    intro i pos
    obtain ⟨ps, hps, hsz⟩ := ih (i + 1) pos
    have hstep : spawn_items envAllOk m (List.replicate (k + 1) (.webpage url)) i pos
        true 600 800 =
        .ok ((⟨class_name m.id (new_pos true pos i 600), url, new_pos true pos i 600,
          new_size true 600 800,
          i3_args (class_name m.id (new_pos true pos i 600))
            (wrap16 ((new_pos true pos i 600).1 - 130))
            (wrap16 ((new_pos true pos i 600).2 - 20))⟩ : Placement) :: ps) := by
      rw [List.replicate_succ]
      simp only [spawn_items, leaf_ok_envAllOk, hps]
      rfl
    refine ⟨_, hstep, ?_⟩
    simp only [List.map_cons, hsz, List.replicate_succ, new_size]
    rfl

/-- Placements whose sizes are all `(800, 600)` have axis dimension 600. -/
theorem map_axis_replicate (ps : List Placement) (k : Nat)
    (hsz : ps.map (fun p => p.size) = List.replicate k ((800 : Nat), (600 : Nat))) :
    ps.map (fun p => axis_len true p.size) = List.replicate k 600 := by
  have h2 : ps.map (fun p => axis_len true p.size) =
      (ps.map (fun p => p.size)).map (fun s => axis_len true s) := by
    simp [List.map_map, Function.comp]
  rw [h2, hsz, List.map_replicate]
  exact congrArg (List.replicate k) rfl

/-- Claim C9 counterexample: a split with 65537 children of the 800×600
rectangle — the `u16` cast truncates the count to 1, every child receives
the full 600-pixel axis dimension, and the children's dimensions sum to
65537·600, far exceeding the parent's 600. -/
theorem sum_exceeds_parent_cex :
    (spawn_display envAllOk mon0
        (.split true (List.replicate 65537 (.webpage "a"))) (0, 0) (800, 600)).map
      (fun ps => (ps.map (fun p => axis_len true p.size)).sum) = .ok (65537 * 600) ∧
    axis_len true (800, 600) < 65537 * 600 := by
  obtain ⟨ps, hps, hsz⟩ := spawn_items_replicate mon0 "a" 65537 0 (0, 0)
  constructor
  · rw [(split_replicate_eval mon0 "a" 65537 1 (by norm_num) (by norm_num)).trans hps]
    simp only [Except.map]
    rw [map_axis_replicate ps 65537 hsz, sum_replicate_nat]
  · norm_num [axis_len]

end Screens
